import Mathlib

/-!
Shallow embedding of the sigrok `jtag_avr` protocol decoder (`src/pd.py`).

Bit strings delivered by the upstream JTAG decoder consist of the characters
'0' and '1' only; they are modelled as `List Bool` (list position i = string
index i, `true` = '1').  Commands and register-state names are kept as the
Python strings.  Annotation emissions (`self.put*` calls) are collected into
lists; Python exceptions (IndexError from `value[0]` on an empty string,
ValueError from `int('0b', 2)` on an empty slice) become an explicit error
type, with the emissions that happened before the raise preserved.
-/

namespace JtagAvr

/-- Python exceptions that the decoder's string/int operations can raise. -/
inductive PyErr where
  | indexError
  | valueError
deriving DecidableEq

/-- One annotation record: either a whole-event annotation (`self.putx`)
or a per-bit-range annotation (`self.putf s e`, with `self.putb b` =
`self.putf b b`).  The payload is `(annotation class, text alternatives)`. -/
inductive Emit where
  | putx : Nat × List String → Emit
  | putf : Nat → Nat → Nat × List String → Emit
deriving DecidableEq

/-- Annotation class indices from `class Annotations` in `src/pd.py`. -/
def A.JTAG_ITEM : Nat := 0

def A.JTAG_FIELD : Nat := 1

def A.JTAG_COMMAND : Nat := 2

def A.JTAG_WARNING : Nat := 3

def A.DATA_IN : Nat := 4

def A.PARITY_IN_OK : Nat := 5

def A.PARITY_IN_ERR : Nat := 6

def A.DATA_OUT : Nat := 7

def A.PARITY_OUT_OK : Nat := 8

def A.PARITY_OUT_ERR : Nat := 9

def A.BREAK : Nat := 10

def A.DATA_PROG : Nat := 12

def A.DATA_DEV : Nat := 13

/-- The second enumeration in `class Annotations`. -/
def A.PARITY_OK : Nat := 0

def A.PARITY_ERR : Nat := 1

/-- Model of `int(f'0b{bits}', 2)` on a nonempty '0'/'1' string: most-significant
character first. -/
def bitsToNat (l : List Bool) : Nat :=
  l.foldl (fun a b => 2 * a + b.toNat) 0

/-- Rendering a bit string back to its Python text ('0'/'1' characters). -/
def bitsToStr (l : List Bool) : String :=
  String.mk (l.map (fun b => if b then '1' else '0'))

/-- Model of `int(f'0b{bits}', 2)`: raises ValueError when the slice is empty
(`int('0b', 2)`), otherwise the binary value, MSB first. -/
def pyBinInt (l : List Bool) : Except PyErr Nat :=
  if l.isEmpty then .error .valueError else .ok (bitsToNat l)

/-- Python slice `l[a:b]` semantics for possibly negative bounds. -/
def pySlice (l : List Bool) (a b : Int) : List Bool :=
  let n : Int := l.length
  let a2 : Int := if a < 0 then max (n + a) 0 else min a n
  let b2 : Int := if b < 0 then max (n + b) 0 else min b n
  (l.drop a2.toNat).take (b2.toNat - a2.toNat)

/-- Python `'{:#x}'.format(n)`: `0x` plus lowercase hex digits, no padding. -/
def pyHex (n : Nat) : String :=
  "0x" ++ String.mk (Nat.toDigits 16 n)

/-- Python `f'{n:#04x}'`: `0x` plus hex digits zero-padded to width 2. -/
def pyHex04 (n : Nat) : String :=
  let ds := Nat.toDigits 16 n
  "0x" ++ String.mk (List.replicate (2 - ds.length) '0' ++ ds)

/-- Direction argument of the PDI decoder methods.  The Python code passes
the annotation class `A.DATA_IN` (host→device, "toDevice") or `A.DATA_OUT`
(device→host, "toHost"); these are the only two keys of
`PDIDecoder.ann_class`, so the direction is a two-valued type. -/
inductive Dir where
  | dataIn
  | dataOut
deriving DecidableEq

/-- The annotation class constant the Python call sites pass as `dir`. -/
def Dir.ann : Dir → Nat
  | .dataIn => A.DATA_IN
  | .dataOut => A.DATA_OUT

/-- Table `PDIDecoder.ann_class[dir][value]` from `src/pd.py`. -/
def ann_class (dir : Dir) (v : Nat) : Nat :=
  match dir with
  | .dataIn => if v == A.PARITY_OK then A.PARITY_IN_OK else A.PARITY_IN_ERR
  | .dataOut => if v == A.PARITY_OK then A.PARITY_OUT_OK else A.PARITY_OUT_ERR

/-- Table `PDIDecoder.ann_class_text` from `src/pd.py`. -/
def ann_class_text (v : Nat) : List String :=
  if v == A.PARITY_ERR then ["Parity error", "Par ERR", "PE"]
  else if v == A.BREAK then ["Break condition", "BREAK", "BRK"]
  else ["Parity OK", "Par OK", "P"]

/-- Method `PDIDecoder.putb`: a one-bit annotation with the direction-resolved
parity annotation class. -/
def putbPdi (bit : Nat) (dir : Dir) (v : Nat) : Emit :=
  Emit.putf bit bit (ann_class dir v, ann_class_text v)

/-- Table `PDIDecoder.special_character` from `src/pd.py`, as the Python dict's
key/value pairs. -/
def special_character : List (Nat × String) :=
  [(0xBB, "BREAK"), (0xDB, "DELAY"), (0xEB, "EMPTY")]

/-- Python `dict.get(key, default)` over an association list. -/
def dictGetS (d : List (Nat × String)) (k : Nat) (dflt : String) : String :=
  match d with
  | [] => dflt
  | (k0, v) :: rest => if k = k0 then v else dictGetS rest k dflt

/-- Method `PDIDecoder.put_special`: resolve the byte against the special-character
table and emit it as programmer data (input) or device data (output). -/
def put_special (data : Nat) (dir : Dir) : Emit :=
  let special := dictGetS special_character data "INVALID"
  match dir with
  | .dataIn => Emit.putx (A.DATA_PROG, [special])
  | .dataOut => Emit.putx (A.DATA_DEV, [special])

/-- Method `PDIDecoder.checkParity` from `src/pd.py`.  Faithful to the statement
order of the source: `value[0]` and `int(f'0b{value[1:]}', 2)` are evaluated
*before* the `len(value) != 9` guard, so an empty frame raises IndexError
and a one-character frame raises ValueError.  On success it returns
`(data, parityOK)` together with the annotations emitted. -/
def checkParity (value : List Bool) (dir : Dir) :
    Except PyErr ((Nat × Bool) × List Emit) :=
  match value with
  | [] => .error .indexError
  | v0 :: rest =>
    if rest.isEmpty then .error .valueError
    else
      let parity := v0.toNat
      let data := bitsToNat rest
      let dataText := pyHex04 data
      let onesCount := rest.count true
      let parityOK := (onesCount + parity) % 2 == 0
      if (v0 :: rest).length ≠ 9 then .ok ((0, false), [])
      else
        let em :=
          [Emit.putf 0 7 (dir.ann, ["Data: " ++ dataText, "D: " ++ dataText, dataText]),
           putbPdi 8 dir (if parityOK then A.PARITY_OK else A.PARITY_ERR)]
          ++ (if parityOK then [] else [put_special data dir])
        .ok ((data, parityOK), em)

/-- Method `PDIDecoder.handleInput`: run the parity check for direction
`A.DATA_IN` and discard the returned pair. -/
def handleInput (value : List Bool) : Except PyErr (List Emit) :=
  (checkParity value .dataIn).map (fun r => r.2)

/-- Method `PDIDecoder.handleOutput`: run the parity check for direction
`A.DATA_OUT` and discard the returned pair. -/
def handleOutput (value : List Bool) : Except PyErr (List Emit) :=
  (checkParity value .dataOut).map (fun r => r.2)

/-- The `parity_ok` flag `checkParity` computes for a frame (`false` when
the frame is rejected or raises). -/
def parityOf (value : List Bool) (dir : Dir) : Bool :=
  match checkParity value dir with
  | .ok ((_, ok), _) => ok
  | .error _ => false

/-- The annotations `checkParity` emits for a frame (`[]` when the frame is
rejected or raises). -/
def emitsOf (value : List Bool) (dir : Dir) : List Emit :=
  match checkParity value dir with
  | .ok (_, em) => em
  | .error _ => []

/-- Flipping the bit at position `i` of a frame. -/
def flipAt (l : List Bool) (i : Nat) : List Bool :=
  l.set i (!(l.getD i false))

/-- An emission is a special-character annotation iff it is a `putx` with
class `DATA_PROG` or `DATA_DEV`. -/
def isSpecialEmit : Emit → Bool
  | .putx (c, _) => c == A.DATA_PROG || c == A.DATA_DEV
  | _ => false

/-- The special-character table written out as the spec states it. -/
def specialLabel (n : Nat) : String :=
  if n = 0xBB then "BREAK"
  else if n = 0xDB then "DELAY"
  else if n = 0xEB then "EMPTY"
  else "INVALID"

/-- The `ir` table from `src/pd.py`: 4-bit prefix → (register name, width). -/
def ir : List (List Bool × (String × Nat)) :=
  [([false, false, true, true], ("IDCODE", 32)),
   ([false, true, true, true], ("PDICOM", 9)),
   ([true, true, true, true], ("BYPASS", 1))]

/-- Python `dict.get(key, default)` over the `ir` association list. -/
def dictGetIr (d : List (List Bool × (String × Nat))) (k : List Bool)
    (dflt : String × Nat) : String × Nat :=
  match d with
  | [] => dflt
  | (k0, v) :: rest => if k = k0 then v else dictGetIr rest k dflt

/-- The `jedec_id` table from `src/pd.py`. -/
def jedec_id : List (Nat × String) :=
  [(0x1f, "Atmel")]

/-- The `avr_idcode` table from `src/pd.py`. -/
def avr_idcode : List (Nat × String) :=
  [(0x9642, "ATXMega64A3U"), (0x9742, "ATXMega128A3U"),
   (0x9744, "ATXMega192A3U"), (0x9842, "ATXMega256A3U")]

/-- Function `decode_device_id_code` from `src/pd.py`: negative slices of the shifted
bit string, each converted with `int(f'0b{...}', 2)` (which raises ValueError
on an empty slice). -/
def decode_device_id_code (bits : List Bool) :
    Except PyErr (String × String × Nat × String) := do
  let version ← pyBinInt (pySlice bits (-32) (-28))
  let part0 ← pyBinInt (pySlice bits (-28) (-12))
  let part := dictGetS avr_idcode part0 (pyHex part0)
  let manufacturer ← (pyBinInt (pySlice bits (-12) (-1))).map
    (fun m => dictGetS jedec_id m "INVALID")
  let idv ← pyBinInt bits
  .ok (pyHex idv, manufacturer, version, part)

/-- Method `Decoder.handle_reg_bypass`: a single item-level annotation with the raw
bit text. -/
def handle_reg_bypass (bits : List Bool) : List Emit :=
  [Emit.putx (A.JTAG_ITEM, ["BYPASS: " ++ bitsToStr bits])]

/-- Method `Decoder.handle_reg_idcode`: decode the id code and emit the field,
item and command annotations in source order. -/
def handle_reg_idcode (bits : List Bool) : Except PyErr (List Emit) := do
  let (id_hex, manuf, vers, part) ← decode_device_id_code bits
  .ok [Emit.putf 0 0 (A.JTAG_FIELD, ["Reserved", "Res", "R"]),
       Emit.putf 1 11 (A.JTAG_FIELD, ["Manufacturer: " ++ manuf, "Manuf", "M"]),
       Emit.putf 12 27 (A.JTAG_FIELD, ["Part: " ++ part, "Part", "P"]),
       Emit.putf 28 31 (A.JTAG_FIELD, ["Version: " ++ toString vers, "Version", "V"]),
       Emit.putx (A.JTAG_ITEM, ["IDCODE: " ++ id_hex]),
       Emit.putx (A.JTAG_COMMAND,
         ["IDCODE: " ++ id_hex ++ " (" ++ manuf ++ ": " ++ part ++ "@r" ++ toString vers ++ ")"])]

/-- Contiguous-sublist test on character lists. -/
def infixOfL (sub : List Char) : List Char → Bool
  | [] => sub.isEmpty
  | c :: t => sub.isPrefixOf (c :: t) || infixOfL sub t

/-- Python `sub in s` substring containment (the source writes
`self.state in ('IDCODE')`, which is a string, not a tuple). -/
def pyIn (sub s : String) : Bool :=
  infixOfL sub.toList s.toList

/-- Method `Decoder.decode` from `src/pd.py`, as one step of the dispatcher state
machine: from the current register state, the event command and its bit
payload, produce the annotations emitted and either the next state or the
Python exception raised (annotations emitted before the raise are kept).
Sample-number bookkeeping (`self.samplenums`) only affects where annotations
are placed, not which are produced, and is not modelled. -/
def decode (state : String) (cmd : String) (val : List Bool) :
    List Emit × Except PyErr String :=
  let st1 := if cmd == "IR TDI" then (dictGetIr ir (val.take 4) ("UNKNOWN", 0)).1 else state
  let em0 : List Emit := if cmd == "IR TDI" then [Emit.putx (2, ["IR: " ++ st1])] else []
  if st1 == "BYPASS" then
    if cmd != "DR TDI" then (em0, .ok st1)
    else (em0 ++ handle_reg_bypass val, .ok "IDLE")
  else if pyIn st1 "IDCODE" then
    if cmd != "DR TDO" then (em0, .ok st1)
    else
      match handle_reg_idcode val with
      | .ok em => (em0 ++ em, .ok "IDLE")
      | .error e => (em0, .error e)
  else if st1 == "PDICOM" then
    if cmd != "DR TDI" && cmd != "DR TDO" then (em0, .ok st1)
    else if cmd == "DR TDI" then
      match handleInput val with
      | .ok em => (em0 ++ em, .ok st1)
      | .error e => (em0, .error e)
    else
      let emC := [Emit.putx (A.JTAG_COMMAND, ["PDICOM"])]
      match handleOutput val with
      | .ok em => (em0 ++ emC ++ em, .ok st1)
      | .error e => (em0 ++ emC, .error e)
  else (em0, .ok st1)

/-- The register state after a step, when no exception was raised. -/
def postState (r : List Emit × Except PyErr String) : Option String :=
  match r.2 with
  | .ok s => some s
  | .error _ => none

/-! Helper lemmas -/

lemma specialLabel_eq (n : Nat) :
    dictGetS special_character n "INVALID" = specialLabel n := rfl

lemma parityOf_frame (p : Bool) (d : List Bool) (dir : Dir) (h : d.length = 8) :
    parityOf (p :: d) dir = ((d.count true + p.toNat) % 2 == 0) := by
  cases d with
  | nil => simp at h
  | cons b t =>
    have ht : t.length = 7 := by simpa using h
    simp [parityOf, checkParity, ht]

lemma count_flip (l : List Bool) (j : Nat) (hj : j < l.length) :
    (l.set j (!(l.getD j false))).count true % 2 = (l.count true + 1) % 2 := by
  induction l generalizing j with
  | nil => simp at hj
  | cons x xs ih =>
    cases j with
    | zero =>
      cases x <;> simp [List.count_cons] <;> omega
    | succ j =>
      have hj2 : j < xs.length := by simpa using hj
      have hx := ih j hj2
      simp at hx
      simp only [List.set_cons_succ, List.getD_cons_succ, List.count_cons]
      cases x <;> simp <;> omega

lemma beq_mod_two_ne (s1 s2 : Nat) (h : s1 % 2 ≠ s2 % 2) :
    (s1 % 2 == 0) = !(s2 % 2 == 0) := by
  rw [Bool.eq_iff_iff]
  simp only [beq_iff_eq, Bool.not_eq_true', beq_eq_false_iff_ne, ne_eq]
  omega

/-! Claims about the PDI frame validator -/

/-- Claim C1 (code_bug evidence): `checkParity` evaluates `frame[0]` and
`int('0b' + frame[1:], 2)` before the `len(frame) != 9` guard, so a frame of
length 0 raises IndexError and a frame of length 1 raises ValueError; only
lengths ≥ 2 (here 8 and 10) reach the guard and return `(0, false)` with no
annotation. -/
theorem checkParity_guard_after_access :
    checkParity [] .dataIn = .error .indexError
    ∧ checkParity [true] .dataIn = .error .valueError
    ∧ checkParity (List.replicate 8 true) .dataIn = .ok ((0, false), [])
    ∧ checkParity (List.replicate 10 true) .dataIn = .ok ((0, false), []) :=
  ⟨rfl, rfl, rfl, rfl⟩

/-- Claim C2: on a 9-bit frame `p :: d`, `checkParity` returns the integer
value of the 8 data bits (most-significant first) and a parity flag that
holds iff `popcount(d) + p` is even; flipping any single one of the 9 bits
flips the parity flag. -/
theorem checkParity_value_and_flip (p : Bool) (d : List Bool) (dir : Dir)
    (h : d.length = 8) :
    (checkParity (p :: d) dir
        = .ok ((bitsToNat d, parityOf (p :: d) dir), emitsOf (p :: d) dir))
    ∧ (parityOf (p :: d) dir = true ↔ Even (d.count true + p.toNat))
    ∧ (∀ i, i < 9 → parityOf (flipAt (p :: d) i) dir = !(parityOf (p :: d) dir)) := by
  refine ⟨?_, ?_, ?_⟩
  · cases d with
    | nil => simp at h
    | cons b t =>
      have ht : t.length = 7 := by simpa using h
      simp [parityOf, emitsOf, checkParity, ht]
  · rw [parityOf_frame p d dir h]
    simp [Nat.even_iff]
  · intro i hi
    cases i with
    | zero =>
      have hflip : flipAt (p :: d) 0 = (!p) :: d := rfl
      rw [hflip, parityOf_frame (!p) d dir h, parityOf_frame p d dir h]
      apply beq_mod_two_ne
      cases p <;> simp <;> omega
    | succ j =>
      have hj : j < d.length := by omega
      have hflip : flipAt (p :: d) (j + 1) = p :: d.set j (!(d.getD j false)) := rfl
      have hlen : (d.set j (!(d.getD j false))).length = 8 := by
        simp [h]
      rw [hflip, parityOf_frame p _ dir hlen, parityOf_frame p d dir h]
      apply beq_mod_two_ne
      have hc := count_flip d j hj
      omega

/-- Claim C2 witness at a concrete frame. -/
theorem checkParity_value_and_flip_witness :
    (checkParity (false :: List.replicate 8 false) .dataIn
        = .ok ((bitsToNat (List.replicate 8 false),
                parityOf (false :: List.replicate 8 false) .dataIn),
               emitsOf (false :: List.replicate 8 false) .dataIn))
    ∧ (parityOf (false :: List.replicate 8 false) .dataIn = true
        ↔ Even ((List.replicate 8 false).count true + (false : Bool).toNat))
    ∧ (∀ i, i < 9 →
        parityOf (flipAt (false :: List.replicate 8 false) i) .dataIn
          = !(parityOf (false :: List.replicate 8 false) .dataIn)) :=
  checkParity_value_and_flip false (List.replicate 8 false) .dataIn (by simp)

/-- Claim C5: on a 9-bit frame, the special-character annotation is emitted
iff parity fails, resolved through {0xBB BREAK, 0xDB DELAY, 0xEB EMPTY,
otherwise INVALID}, as programmer data for direction `toDevice` and device
data for direction `toHost`. -/
theorem special_char_iff_parity_err (p : Bool) (d : List Bool) (dir : Dir)
    (h : d.length = 8) :
    checkParity (p :: d) dir
        = .ok ((bitsToNat d, parityOf (p :: d) dir), emitsOf (p :: d) dir)
      ∧ (emitsOf (p :: d) dir).filter isSpecialEmit =
          (if parityOf (p :: d) dir then []
           else [Emit.putx
             ((match dir with | .dataIn => A.DATA_PROG | .dataOut => A.DATA_DEV),
              [specialLabel (bitsToNat d)])]) := by
  cases d with
  | nil => simp at h
  | cons b t =>
    have ht : t.length = 7 := by simpa using h
    constructor
    · simp [parityOf, emitsOf, checkParity, ht]
    · cases hpk : (((b :: t).count true + p.toNat) % 2 == 0) <;> cases dir <;>
        simp [parityOf, emitsOf, checkParity, ht, hpk, put_special, putbPdi,
          isSpecialEmit, specialLabel_eq, ann_class]

/-- Claim C5 witness at a concrete bad-parity frame. -/
theorem special_char_iff_parity_err_witness :
    checkParity (true :: List.replicate 8 false) .dataIn
        = .ok ((bitsToNat (List.replicate 8 false),
                parityOf (true :: List.replicate 8 false) .dataIn),
               emitsOf (true :: List.replicate 8 false) .dataIn)
      ∧ (emitsOf (true :: List.replicate 8 false) .dataIn).filter isSpecialEmit =
          (if parityOf (true :: List.replicate 8 false) .dataIn then []
           else [Emit.putx
             ((match Dir.dataIn with | .dataIn => A.DATA_PROG | .dataOut => A.DATA_DEV),
              [specialLabel (bitsToNat (List.replicate 8 false))])]) :=
  special_char_iff_parity_err true (List.replicate 8 false) .dataIn (by simp)

/-! Claims about IDCODE decoding -/

lemma isEmpty_false_of_len (l : List Bool) (h : l.length ≠ 0) : l.isEmpty = false := by
  cases l with
  | nil => simp at h
  | cons a t => rfl

lemma pySlice_32_version (l : List Bool) (h : l.length = 32) :
    pySlice l (-32) (-28) = l.take 4 := by
  simp [pySlice, h]

lemma pySlice_32_part (l : List Bool) (h : l.length = 32) :
    pySlice l (-28) (-12) = (l.drop 4).take 16 := by
  simp [pySlice, h]

lemma pySlice_32_manuf (l : List Bool) (h : l.length = 32) :
    pySlice l (-12) (-1) = (l.drop 20).take 11 := by
  simp [pySlice, h]

/-- Claim C3: on a 32-bit string, `decode_device_id_code` reads the version
from positions 0-3 (spec bits 3-0 counted from the most-significant end),
the part id from positions 4-19 (spec bits 19-4), the manufacturer id from
positions 20-30 (spec bits 30-20), ignores position 31 (spec bit 31,
reserved), resolves the manufacturer through the JEDEC table with fallback
"INVALID" and the part through the AVR table with a hex-literal fallback. -/
theorem decode_device_id_code_layout (bits32 : List Bool) (h : bits32.length = 32) :
    decode_device_id_code bits32 =
      .ok (pyHex (bitsToNat bits32),
        (if bitsToNat ((bits32.drop 20).take 11) = 0x1f then "Atmel" else "INVALID"),
        bitsToNat (bits32.take 4),
        (if bitsToNat ((bits32.drop 4).take 16) = 0x9642 then "ATXMega64A3U"
         else if bitsToNat ((bits32.drop 4).take 16) = 0x9742 then "ATXMega128A3U"
         else if bitsToNat ((bits32.drop 4).take 16) = 0x9744 then "ATXMega192A3U"
         else if bitsToNat ((bits32.drop 4).take 16) = 0x9842 then "ATXMega256A3U"
         else pyHex (bitsToNat ((bits32.drop 4).take 16)))) := by
  have e1 : (bits32.take 4).isEmpty = false := by
    apply isEmpty_false_of_len; simp [h]
  have e2 : ((bits32.drop 4).take 16).isEmpty = false := by
    apply isEmpty_false_of_len; simp [h]
  have e3 : ((bits32.drop 20).take 11).isEmpty = false := by
    apply isEmpty_false_of_len; simp [h]
  have e4 : bits32.isEmpty = false := by
    apply isEmpty_false_of_len; simp [h]
  simp [decode_device_id_code, pySlice_32_version bits32 h, pySlice_32_part bits32 h,
    pySlice_32_manuf bits32 h, pyBinInt, e1, e2, e3, e4,
    dictGetS, jedec_id, avr_idcode, Bind.bind, Except.bind, Except.map]

/-- Claim C3 witness at a concrete 32-bit input. -/
theorem decode_device_id_code_layout_witness :
    decode_device_id_code (List.replicate 32 true) =
      .ok (pyHex (bitsToNat (List.replicate 32 true)),
        (if bitsToNat (((List.replicate 32 true).drop 20).take 11) = 0x1f
         then "Atmel" else "INVALID"),
        bitsToNat ((List.replicate 32 true).take 4),
        (if bitsToNat (((List.replicate 32 true).drop 4).take 16) = 0x9642 then "ATXMega64A3U"
         else if bitsToNat (((List.replicate 32 true).drop 4).take 16) = 0x9742 then "ATXMega128A3U"
         else if bitsToNat (((List.replicate 32 true).drop 4).take 16) = 0x9744 then "ATXMega192A3U"
         else if bitsToNat (((List.replicate 32 true).drop 4).take 16) = 0x9842 then "ATXMega256A3U"
         else pyHex (bitsToNat (((List.replicate 32 true).drop 4).take 16)))) :=
  decode_device_id_code_layout (List.replicate 32 true) (by simp)

/-- Claim C4: a 32-bit string carrying manufacturer field 0x1f (spec bits
30-20) and part field 0x9642 (spec bits 19-4), for any version nibble and
reserved bit, decodes to manufacturer "Atmel" and part "ATXMega64A3U". -/
theorem idcode_round_trip (v0 v1 v2 v3 r : Bool) :
    ∃ idh vers, decode_device_id_code
      ([v0, v1, v2, v3] ++
       [true, false, false, true, false, true, true, false,
        false, true, false, false, false, false, true, false] ++
       [false, false, false, false, false, false, true, true, true, true, true] ++
       [r])
      = .ok (idh, "Atmel", vers, "ATXMega64A3U") :=
  ⟨_, _, rfl⟩

/-! Claims about the dispatcher state machine -/

/-- Claim C6 counterexample: a device→host DR event ("DR TDO") in state
BYPASS is ignored by the code — no BYPASS annotation is emitted and the
state stays BYPASS instead of returning to IDLE. -/
theorem bypass_tdo_cex :
    decode "BYPASS" "DR TDO" [true] = ([], Except.ok "BYPASS")
    ∧ ("BYPASS" : String) ≠ "IDLE" := by
  exact ⟨rfl, by decide⟩

/-- Claim C6 (amended): only a host→device DR event ("DR TDI") in state
BYPASS invokes the BYPASS handler, which emits exactly one item-level
annotation with the raw bits and returns the state to IDLE; a "DR TDO"
event in BYPASS is ignored and leaves the state BYPASS. -/
theorem bypass_handler_on_tdi (bits : List Bool) :
    decode "BYPASS" "DR TDI" bits
      = ([Emit.putx (A.JTAG_ITEM, ["BYPASS: " ++ bitsToStr bits])], Except.ok "IDLE")
    ∧ decode "BYPASS" "DR TDO" bits = ([], Except.ok "BYPASS") :=
  ⟨rfl, rfl⟩

/-- Claim C7: an "IR TDI" event whose 4-bit prefix matches none of the
three table keys selects register UNKNOWN (emitting only the IR
annotation), and DR events in state UNKNOWN are silently ignored: no
annotation, no exception, no state change. -/
theorem unknown_ir_dr_ignored (st : String) (val : List Bool)
    (h1 : val.take 4 ≠ [false, false, true, true])
    (h2 : val.take 4 ≠ [false, true, true, true])
    (h3 : val.take 4 ≠ [true, true, true, true]) :
    decode st "IR TDI" val = ([Emit.putx (2, ["IR: UNKNOWN"])], Except.ok "UNKNOWN")
    ∧ (∀ bits, decode "UNKNOWN" "DR TDI" bits = ([], Except.ok "UNKNOWN"))
    ∧ (∀ bits, decode "UNKNOWN" "DR TDO" bits = ([], Except.ok "UNKNOWN")) := by
  have hget : dictGetIr ir (val.take 4) ("UNKNOWN", 0) = ("UNKNOWN", 0) := by
    simp [dictGetIr, ir, h1, h2, h3]
  refine ⟨?_, fun bits => rfl, fun bits => rfl⟩
  simp [decode, hget, pyIn, infixOfL, List.isPrefixOf]

/-- Claim C7 witness at a concrete unmatched prefix. -/
theorem unknown_ir_dr_ignored_witness :
    decode "IDLE" "IR TDI" [] = ([Emit.putx (2, ["IR: UNKNOWN"])], Except.ok "UNKNOWN")
    ∧ (∀ bits, decode "UNKNOWN" "DR TDI" bits = ([], Except.ok "UNKNOWN"))
    ∧ (∀ bits, decode "UNKNOWN" "DR TDO" bits = ([], Except.ok "UNKNOWN")) :=
  unknown_ir_dr_ignored "IDLE" [] (by decide) (by decide) (by decide)

/-- Claim C8 counterexample: a "DR TDO" data event in state BYPASS does not
set the state back to IDLE — it is ignored and the state stays BYPASS. -/
theorem bypass_tdo_state_cex :
    decode "BYPASS" "DR TDO" [false] = ([], Except.ok "BYPASS")
    ∧ ("BYPASS" : String) ≠ "IDLE" := by
  exact ⟨rfl, by decide⟩

/-- Claim C8 (amended): a host→device DR event in BYPASS always returns the
state to IDLE; a device→host DR event in BYPASS leaves the state BYPASS;
a device→host DR event in IDCODE returns the state to IDLE whenever the
step completes without an exception; DR events handled in PDICOM leave the
state PDICOM whenever the step completes without an exception. -/
theorem dispatcher_state_invariant (bits : List Bool) :
    (decode "BYPASS" "DR TDI" bits).2 = Except.ok "IDLE"
    ∧ (decode "BYPASS" "DR TDO" bits).2 = Except.ok "BYPASS"
    ∧ (postState (decode "IDCODE" "DR TDO" bits) = some "IDLE"
        ∨ postState (decode "IDCODE" "DR TDO" bits) = none)
    ∧ (postState (decode "PDICOM" "DR TDI" bits) = some "PDICOM"
        ∨ postState (decode "PDICOM" "DR TDI" bits) = none)
    ∧ (postState (decode "PDICOM" "DR TDO" bits) = some "PDICOM"
        ∨ postState (decode "PDICOM" "DR TDO" bits) = none) := by
  have hpy1 : pyIn "IDCODE" "IDCODE" = true := rfl
  have hpy2 : pyIn "PDICOM" "IDCODE" = false := rfl
  refine ⟨rfl, rfl, ?_, ?_, ?_⟩
  · cases hie : handle_reg_idcode bits with
    | ok em => left; simp [decode, postState, hie, hpy1]
    | error e => right; simp [decode, postState, hie, hpy1]
  · cases hin : handleInput bits with
    | ok em => left; simp [decode, postState, hin, hpy2]
    | error e => right; simp [decode, postState, hin, hpy2]
  · cases hout : handleOutput bits with
    | ok em => left; simp [decode, postState, hout, hpy2]
    | error e => right; simp [decode, postState, hout, hpy2]

/-- Claim C9: a host→device DR event ("DR TDI") in state IDCODE is a
no-op: no annotation, no handler call, state unchanged. -/
theorem idcode_tdi_noop (bits : List Bool) :
    decode "IDCODE" "DR TDI" bits = ([], Except.ok "IDCODE") := rfl

/-- Claim C10: every "DR TDO" event in state PDICOM emits the "PDICOM"
command annotation before the frame is validated, so a malformed frame
(length ≠ 9) still yields exactly that one dispatcher-level annotation and
nothing from the frame decoder. -/
theorem pdicom_cmd_ann_always (bits : List Bool) (h : bits.length ≠ 9) :
    (decode "PDICOM" "DR TDO" bits).1 = [Emit.putx (A.JTAG_COMMAND, ["PDICOM"])] := by
  match bits with
  | [] => rfl
  | [b] => rfl
  | b :: c :: rest =>
    have h7 : ¬(rest.length = 7) := by
      simp at h; omega
    have hpy : pyIn "PDICOM" "IDCODE" = false := rfl
    simp [decode, handleOutput, checkParity, h7, hpy, Except.map]

/-- Claim C10 witness at a concrete malformed frame. -/
theorem pdicom_cmd_ann_always_witness :
    (decode "PDICOM" "DR TDO" []).1 = [Emit.putx (A.JTAG_COMMAND, ["PDICOM"])] :=
  pdicom_cmd_ann_always [] (by decide)

end JtagAvr
